import Mathlib

/-!
Verification development for the Production-Counter firmware (Firmware v2.02).

The definitions below are a shallow embedding of the C++ sources:
  - `ProductionManager`, `TimeManager` from `src/managers/managers.cpp`;
  - `StateManager` (states, events, circular event queue, guarded
    transitions, per-state event dispatch) from `src/core/state_manager.cpp`
    and `src/core/state_manager.h`;
  - namespace `V3` embeds the monolithic firmware `code_v3.cpp`
    (production session globals, interrupt counting, hour-boundary handler,
    and the recovery snapshot save/restore path).

Machine integers of the source (`int`) are modelled as `Int`; `uint8_t`
queue indices, which the code keeps in `[0, 16)` via `% EVENT_QUEUE_SIZE`,
are modelled as `Fin 16`.  Wall-clock timing fields (`millis()`-based
timestamps, debounce windows) and pure logging/display side effects are
outside the embedded fragment: they never feed back into the counting,
queueing or transition logic modelled here.  Storage is modelled as an
explicit `Option Snapshot` value passed in and out of the save/restore
functions.
-/

/-- `DateTime` from RTClib as used by the firmware: six calendar fields.
The C++ accessors return integer types; file recovery parses them with
`parseInt`, which can produce any integer, so all fields are `Int`. -/
structure DateTime where
  year : Int
  month : Int
  day : Int
  hour : Int
  minute : Int
  second : Int
  deriving DecidableEq, Repr

/-- `ProductionManager` state (managers.h lines 35-43): session flag,
session counter, running total, session start/stop times, and the
`startingCountValue` baseline. -/
structure ProductionManager where
  sessionActive : Bool
  sessionCount : Int
  totalSessionCount : Int
  sessionStartTime : DateTime
  sessionStopTime : DateTime
  startingCountValue : Int
  deriving DecidableEq, Repr

/-- `ProductionManager::startSession` (managers.cpp 16-32): fails if a
session is already active; otherwise activates, zeroes the session count
and baseline, and captures the start time.  The C++ reads the clock
internally; the clock value is passed as `now`. -/
def ProductionManager.startSession (pm : ProductionManager) (now : DateTime) :
    ProductionManager × Bool :=
  if pm.sessionActive then
    (pm, false)
  else
    ({ pm with sessionActive := true, sessionCount := 0,
               startingCountValue := 0, sessionStartTime := now }, true)

/-- `ProductionManager::stopSession` (managers.cpp 34-53): warns and fails
if no session is active; otherwise clears the active flag, captures the
stop time and adds `sessionCount` into `totalSessionCount`.  Note the C++
body never writes `sessionCount` itself. -/
def ProductionManager.stopSession (pm : ProductionManager) (now : DateTime) :
    ProductionManager × Bool :=
  if !pm.sessionActive then
    (pm, false)
  else
    ({ pm with sessionActive := false, sessionStopTime := now,
               totalSessionCount := pm.totalSessionCount + pm.sessionCount }, true)

/-- `ProductionManager::incrementCount` (managers.cpp 55-69): no-op unless
a session is active; increments `sessionCount` only while it is below the
hard-coded bound 9999. -/
def ProductionManager.incrementCount (pm : ProductionManager) : ProductionManager :=
  if !pm.sessionActive then
    pm
  else if pm.sessionCount < 9999 then
    { pm with sessionCount := pm.sessionCount + 1 }
  else
    pm

/-- `TimeManager` state (managers.h lines 72-76). -/
structure TimeManager where
  lastTrackedHour : Int
  lastRecordedTime : DateTime
  timeInitialized : Bool
  deriving DecidableEq, Repr

/-- `TimeManager::hasHourChanged` (managers.cpp 208-211): a `const` query
comparing the current hour against `lastTrackedHour`.  It performs no
update.  The C++ reads the clock internally; the clock value is passed as
`now`. -/
def TimeManager.hasHourChanged (tm : TimeManager) (now : DateTime) : Bool :=
  now.hour != tm.lastTrackedHour

/-- `TimeManager::handleHourChange` (managers.cpp 217-230): if the hour
differs from `lastTrackedHour`, records the new hour and time. -/
def TimeManager.handleHourChange (tm : TimeManager) (now : DateTime) : TimeManager :=
  if now.hour != tm.lastTrackedHour then
    { tm with lastTrackedHour := now.hour, lastRecordedTime := now }
  else
    tm

example :
    ProductionManager.incrementCount
      ⟨true, 7, 0, ⟨2024, 1, 1, 0, 0, 0⟩, ⟨2024, 1, 1, 0, 0, 0⟩, 0⟩ =
      ⟨true, 8, 0, ⟨2024, 1, 1, 0, 0, 0⟩, ⟨2024, 1, 1, 0, 0, 0⟩, 0⟩ := by decide

example :
    (ProductionManager.stopSession
      ⟨true, 5, 10, ⟨2024, 1, 1, 0, 0, 0⟩, ⟨2024, 1, 1, 0, 0, 0⟩, 0⟩
      ⟨2024, 1, 1, 1, 0, 0⟩).1.sessionCount = 5 := by decide

/-- `SystemState` (state_manager.h 10-16). -/
inductive SystemState where
  | INITIALIZATION
  | READY
  | PRODUCTION
  | DIAGNOSTIC
  | ERROR
  deriving DecidableEq, Repr

/-- `ProductionState` sub-state (state_manager.h 21-25). -/
inductive ProductionState where
  | IDLE
  | ACTIVE
  | SUSPENDED
  deriving DecidableEq, Repr

/-- `TimeState` sub-state (state_manager.h 30-34). -/
inductive TimeState where
  | UNSYNCHRONIZED
  | SYNCHRONIZED
  | HOUR_TRANSITION
  deriving DecidableEq, Repr

/-- `SystemEvent` (state_manager.h 39-82): the closed event union. -/
inductive SystemEvent where
  | EVT_STARTUP_BEGIN
  | EVT_STARTUP_COMPLETE
  | EVT_STARTUP_FAILED
  | EVT_PRODUCTION_START
  | EVT_PRODUCTION_STOP
  | EVT_COUNTER_PRESSED
  | EVT_COUNT_UPDATED
  | EVT_COUNT_SAVED
  | EVT_TIME_UPDATED
  | EVT_HOUR_CHANGED
  | EVT_HOUR_LOGGED
  | EVT_RTC_AVAILABLE
  | EVT_RTC_UNAVAILABLE
  | EVT_SD_AVAILABLE
  | EVT_SD_UNAVAILABLE
  | EVT_OLED_AVAILABLE
  | EVT_OLED_UNAVAILABLE
  | EVT_DIAGNOSTIC_REQUEST
  | EVT_DIAGNOSTIC_COMPLETE
  | EVT_SERIAL_COMMAND
  | EVT_SERIAL_TIME_SET
  | EVT_ENTER_STATE
  | EVT_EXIT_STATE
  | EVT_STATE_TIMEOUT
  | EVT_ERROR_DETECTED
  | EVT_ERROR_RECOVERED
  | EVT_ERROR_FATAL
  deriving DecidableEq, Repr

/-- `StateManager` state (state_manager.h 123-142): current/previous
state, sub-states, and the circular event queue with `uint8_t` head/tail
indices.  `EVENT_QUEUE_SIZE = 16`; the code keeps both indices in
`[0, 16)` via `% EVENT_QUEUE_SIZE`, modelled as `Fin 16`.  The
`millis()`-based timing fields and the two statistics counters do not
feed back into any queue or transition decision and are omitted. -/
structure StateManager where
  currentState : SystemState
  previousState : SystemState
  productionSubState : ProductionState
  timeSubState : TimeState
  eventQueue : Fin 16 → SystemEvent
  eventQueueHead : Fin 16
  eventQueueTail : Fin 16
  deriving DecidableEq

/-- `StateManager::initialize` plus the constructor (state_manager.cpp
7-20): initial states, sub-states, and a zeroed queue (`memset` writes the
first enum variant) with both indices 0. -/
def StateManager.initialState : StateManager where
  currentState := SystemState.INITIALIZATION
  previousState := SystemState.INITIALIZATION
  productionSubState := ProductionState.IDLE
  timeSubState := TimeState.UNSYNCHRONIZED
  eventQueue := fun _ => SystemEvent.EVT_STARTUP_BEGIN
  eventQueueHead := 0
  eventQueueTail := 0

/-- `StateManager::queueEvent` (state_manager.cpp 22-33): computes
`nextTail = (tail + 1) % 16`; if that equals `head` the queue is full and
the incoming event is dropped (state unchanged, a warning is printed);
otherwise the event is written at `tail` and `tail` advances. -/
def StateManager.queueEvent (sm : StateManager) (e : SystemEvent) : StateManager :=
  let nextTail : Fin 16 := sm.eventQueueTail + 1
  if nextTail = sm.eventQueueHead then
    sm
  else
    { sm with eventQueue := Function.update sm.eventQueue sm.eventQueueTail e,
              eventQueueTail := nextTail }

/-- `StateManager::hasQueuedEvents` (state_manager.cpp 35-37). -/
def StateManager.hasQueuedEvents (sm : StateManager) : Bool :=
  sm.eventQueueHead != sm.eventQueueTail

/-- The code's queue-full test: the rejection condition of `queueEvent`. -/
def StateManager.isFull (sm : StateManager) : Bool :=
  sm.eventQueueTail + 1 == sm.eventQueueHead

/-- Number of occupied queue slots: `(tail - head) mod 16`, the standard
occupancy of a head/tail circular buffer. -/
def StateManager.occupied (sm : StateManager) : Nat :=
  (16 + sm.eventQueueTail.val - sm.eventQueueHead.val) % 16

/-- The queued events in FIFO order: `n` cells starting at `head`. -/
def listFromQueue (q : Fin 16 → SystemEvent) (head : Fin 16) : Nat → List SystemEvent
  | 0 => []
  | n + 1 => q head :: listFromQueue q (head + 1) n

/-- The logical contents of the event queue, oldest first. -/
def StateManager.queueContents (sm : StateManager) : List SystemEvent :=
  listFromQueue sm.eventQueue sm.eventQueueHead sm.occupied

/-- `GuardConditions::isOLEDAvailable` (state_manager.cpp 386-389):
hard-coded `true`. -/
def GuardConditions.isOLEDAvailable : Bool := true

/-- `GuardConditions::canStartProduction` (state_manager.cpp 391-394). -/
def GuardConditions.canStartProduction : Bool := GuardConditions.isOLEDAvailable

/-- `StateManager::canEnterReady` (state_manager.cpp 349-352). -/
def StateManager.canEnterReady (_sm : StateManager) : Bool :=
  GuardConditions.isOLEDAvailable

/-- `StateManager::canStartProduction` (state_manager.cpp 354-358):
requires the current state to be READY (plus the hardware guard). -/
def StateManager.canStartProduction (sm : StateManager) : Bool :=
  sm.currentState == SystemState.READY && GuardConditions.canStartProduction

/-- `StateManager::canEnterDiagnostic` (state_manager.cpp 365-368):
diagnostic mode can be entered from READY only. -/
def StateManager.canEnterDiagnostic (sm : StateManager) : Bool :=
  sm.currentState == SystemState.READY

/-- `StateManager::canTransitionTo` (state_manager.cpp 143-158). -/
def StateManager.canTransitionTo (sm : StateManager) (newState : SystemState) : Bool :=
  match newState with
  | SystemState.READY => sm.canEnterReady
  | SystemState.PRODUCTION => sm.canStartProduction
  | SystemState.DIAGNOSTIC => sm.canEnterDiagnostic
  | SystemState.ERROR => true
  | SystemState.INITIALIZATION => sm.currentState == SystemState.INITIALIZATION

/-- Exit actions (state_manager.cpp 117-123, 302-343): only
`exitProduction` mutates embedded state (sub-state to IDLE); the other
exit handlers only log. -/
def StateManager.exitActions (sm : StateManager) : StateManager :=
  match sm.currentState with
  | SystemState.PRODUCTION => { sm with productionSubState := ProductionState.IDLE }
  | _ => sm

/-- Entry actions (state_manager.cpp 131-137, 302-343): `enterReady` sets
the production sub-state to IDLE, `enterProduction` sets it to ACTIVE;
the other entry handlers only log. -/
def StateManager.enterActions (sm : StateManager) : StateManager :=
  match sm.currentState with
  | SystemState.READY => { sm with productionSubState := ProductionState.IDLE }
  | SystemState.PRODUCTION => { sm with productionSubState := ProductionState.ACTIVE }
  | _ => sm

/-- `StateManager::transitionTo` (state_manager.cpp 110-141): a refused
guard returns `false` with the state unchanged; otherwise exit actions
run, `previousState`/`currentState` update, entry actions run, and the
call returns `true`. -/
def StateManager.transitionTo (sm : StateManager) (newState : SystemState) :
    StateManager × Bool :=
  if sm.canTransitionTo newState then
    let sm1 := sm.exitActions
    let sm2 := { sm1 with previousState := sm1.currentState, currentState := newState }
    (sm2.enterActions, true)
  else
    (sm, false)

/-- `StateManager::processEvent` with the per-state handlers
(state_manager.cpp 39-64 and 216-296).  Events not named in the current
state's switch fall to `default` and leave the state unchanged. -/
def StateManager.processEvent (sm : StateManager) (e : SystemEvent) : StateManager :=
  match sm.currentState with
  | SystemState.INITIALIZATION =>
    match e with
    | SystemEvent.EVT_RTC_AVAILABLE => { sm with timeSubState := TimeState.SYNCHRONIZED }
    | SystemEvent.EVT_SD_AVAILABLE => sm
    | SystemEvent.EVT_STARTUP_COMPLETE => (sm.transitionTo SystemState.READY).1
    | SystemEvent.EVT_STARTUP_FAILED => (sm.transitionTo SystemState.ERROR).1
    | _ => sm
  | SystemState.READY =>
    match e with
    | SystemEvent.EVT_PRODUCTION_START => (sm.transitionTo SystemState.PRODUCTION).1
    | SystemEvent.EVT_DIAGNOSTIC_REQUEST => (sm.transitionTo SystemState.DIAGNOSTIC).1
    | SystemEvent.EVT_HOUR_CHANGED => sm
    | SystemEvent.EVT_ERROR_DETECTED => (sm.transitionTo SystemState.ERROR).1
    | _ => sm
  | SystemState.PRODUCTION =>
    match e with
    | SystemEvent.EVT_COUNTER_PRESSED => { sm with productionSubState := ProductionState.ACTIVE }
    | SystemEvent.EVT_PRODUCTION_STOP => (sm.transitionTo SystemState.READY).1
    | SystemEvent.EVT_HOUR_CHANGED => sm
    | SystemEvent.EVT_ERROR_DETECTED => (sm.transitionTo SystemState.ERROR).1
    | _ => sm
  | SystemState.DIAGNOSTIC =>
    match e with
    | SystemEvent.EVT_DIAGNOSTIC_COMPLETE => (sm.transitionTo SystemState.READY).1
    | SystemEvent.EVT_ERROR_DETECTED => (sm.transitionTo SystemState.ERROR).1
    | _ => sm
  | SystemState.ERROR =>
    match e with
    | SystemEvent.EVT_ERROR_RECOVERED => (sm.transitionTo SystemState.READY).1
    | SystemEvent.EVT_ERROR_FATAL => sm
    | _ => sm

/-- One drain step of `StateManager::update` (state_manager.cpp 66-72):
when the queue is non-empty, the event at `head` is removed and passed to
`processEvent`. -/
def StateManager.drainStep (sm : StateManager) : StateManager :=
  if sm.eventQueueHead = sm.eventQueueTail then
    sm
  else
    StateManager.processEvent
      { sm with eventQueueHead := sm.eventQueueHead + 1 }
      (sm.eventQueue sm.eventQueueHead)

/-- A queue-facing operation: an enqueue (interrupt producer side) or one
drain step of the main-loop consumer. -/
inductive QueueOp where
  | enq : SystemEvent → QueueOp
  | deq : QueueOp

/-- Apply one queue operation to the state machine. -/
def applyQueueOp (sm : StateManager) : QueueOp → StateManager
  | QueueOp.enq e => sm.queueEvent e
  | QueueOp.deq => sm.drainStep

example : (StateManager.initialState.queueEvent SystemEvent.EVT_STARTUP_COMPLETE).occupied = 1 := by
  decide

example : StateManager.initialState.occupied = 0 := by decide

namespace V3

/-- Global state of `code_v3.cpp` (lines 53-72): the live counter written
by the counter ISR, the hourly/cumulative aggregates, the production
session globals, and the hardware availability flags.  The `volatile`
flags that only drive display/save scheduling (`countChanged`) are kept;
pure timing globals (`millis()` timestamps, debounce bookkeeping) are
omitted: within the embedded fragment they only gate when code runs, not
what it computes. -/
structure State where
  currentCount : Int
  countChanged : Bool
  hourlyCount : Int
  cumulativeCount : Int
  lastHour : Int
  productionActive : Bool
  productionStartCount : Int
  productionCount : Int
  productionStartTime : DateTime
  productionStopTime : DateTime
  rtcAvailable : Bool
  sdAvailable : Bool
  deriving DecidableEq, Repr

/-- The global initializers of `code_v3.cpp` (lines 53-72): all counters
zero, `lastHour = -1`, no session active, no hardware detected.  RTClib's
default `DateTime` is 2000-01-01 00:00:00. -/
def freshBoot : State where
  currentCount := 0
  countChanged := false
  hourlyCount := 0
  cumulativeCount := 0
  lastHour := -1
  productionActive := false
  productionStartCount := 0
  productionCount := 0
  productionStartTime := ⟨2000, 1, 1, 0, 0, 0⟩
  productionStopTime := ⟨2000, 1, 1, 0, 0, 0⟩
  rtcAvailable := false
  sdAvailable := false

/-- The recovery state file `/prod_session.txt` (code_v3.cpp 1320-1331):
`currentCount`, `productionStartCount`, and the six fields of the session
start time, each on its own line.  `parseInt` on read can produce any
integer, so all fields are `Int`. -/
structure Snapshot where
  savedCurrentCount : Int
  savedStartCount : Int
  year : Int
  month : Int
  day : Int
  hour : Int
  minute : Int
  second : Int
  deriving DecidableEq, Repr

/-- The debounce-accepted body of the counter ISR `handleInterrupt`
(code_v3.cpp 172-183): counts only while a production session is active
and `currentCount` is below `MAX_COUNT = 9999`. -/
def handleInterrupt (s : State) : State :=
  if s.productionActive && decide (s.currentCount < 9999) then
    { s with currentCount := s.currentCount + 1, countChanged := true }
  else
    s

/-- `startProduction` (code_v3.cpp 1156-1179): refused when the RTC is
unavailable; otherwise activates the session, records the start time and
the counter baseline, and zeroes the session count.  (The trailing
`saveProductionState()` call is the storage effect modelled by
`saveProductionState` below.) -/
def startProduction (s : State) (now : DateTime) : State :=
  if !s.rtcAvailable then
    s
  else
    { s with productionActive := true, productionStartTime := now,
             productionStartCount := s.currentCount, productionCount := 0 }

/-- `stopProduction` (code_v3.cpp 1181-1209): no-op when inactive;
otherwise deactivates, records the stop time and computes the session
count as the counter differential.  (The session file write and state
file deletion are storage effects.) -/
def stopProduction (s : State) (now : DateTime) : State :=
  if !s.productionActive then
    s
  else
    { s with productionActive := false,
             productionStopTime := if s.rtcAvailable then now else s.productionStartTime,
             productionCount := s.currentCount - s.productionStartCount }

/-- `saveProductionState` (code_v3.cpp 1302-1335) as a transform of the
stored snapshot: silent no-op without the SD card; with the SD card it
clears the state file when no session is active and otherwise writes
`currentCount`, `productionStartCount` and the session start time. -/
def saveProductionState (s : State) (stored : Option Snapshot) : Option Snapshot :=
  if !s.sdAvailable then
    stored
  else if !s.productionActive then
    none
  else
    some { savedCurrentCount := s.currentCount,
           savedStartCount := s.productionStartCount,
           year := s.productionStartTime.year,
           month := s.productionStartTime.month,
           day := s.productionStartTime.day,
           hour := s.productionStartTime.hour,
           minute := s.productionStartTime.minute,
           second := s.productionStartTime.second }

/-- The validation test of `restoreProductionState` (code_v3.cpp
1368-1370), exactly as written: `year >= 2020 && year <= 2100 &&
month >= 1 && month <= 12 && day >= 1 && day <= 31 && hour <= 23 &&
minute <= 59 && second <= 59`.  The fields are signed, and the code
states no lower bound for hour, minute or second. -/
def validSnapshot (snap : Snapshot) : Bool :=
  decide (2020 ≤ snap.year) && decide (snap.year ≤ 2100) &&
  decide (1 ≤ snap.month) && decide (snap.month ≤ 12) &&
  decide (1 ≤ snap.day) && decide (snap.day ≤ 31) &&
  decide (snap.hour ≤ 23) && decide (snap.minute ≤ 59) && decide (snap.second ≤ 59)

/-- `restoreProductionState` (code_v3.cpp 1339-1397): no-op without the
SD card or without a stored state file; with a stored snapshot that
passes validation, the session is resumed (`productionActive := true`,
counters and start time from the snapshot, session count recomputed as
the counter differential); a snapshot failing validation is skipped with
a corruption warning, leaving the boot state unchanged. -/
def restoreProductionState (s : State) (stored : Option Snapshot) : State :=
  if !s.sdAvailable then
    s
  else
    match stored with
    | none => s
    | some snap =>
      if validSnapshot snap then
        { s with productionActive := true,
                 currentCount := snap.savedCurrentCount,
                 productionStartCount := snap.savedStartCount,
                 productionStartTime :=
                   ⟨snap.year, snap.month, snap.day, snap.hour, snap.minute, snap.second⟩,
                 productionCount := snap.savedCurrentCount - snap.savedStartCount }
      else
        s

/-- `handleHourChange` (code_v3.cpp 808-842): when no production session
is active, the live counter is captured, reset to zero, recorded as the
hourly count and folded into the cumulative count (with the SD writes as
storage effects); when a session is active, the branch only logs a
warning and requests a redraw, leaving every counter unchanged. -/
def handleHourChange (s : State) (_now : DateTime) : State :=
  if !s.productionActive then
    { s with currentCount := 0, countChanged := false,
             hourlyCount := s.currentCount,
             cumulativeCount := s.cumulativeCount + s.currentCount }
  else
    s

end V3

example :
    (V3.handleInterrupt { V3.freshBoot with productionActive := true }).currentCount = 1 := by
  decide

example :
    V3.restoreProductionState { V3.freshBoot with sdAvailable := true }
      (some ⟨3, 0, 2024, 6, 15, 12, 30, 45⟩) =
    { V3.freshBoot with sdAvailable := true, productionActive := true,
                        currentCount := 3, productionStartCount := 0, productionCount := 3,
                        productionStartTime := ⟨2024, 6, 15, 12, 30, 45⟩ } := by
  decide

/-- Saturation behaviour of repeated `incrementCount` on an active
session whose count starts within `[0, 9999]`: after `n` calls the count
is `min (start + n) 9999` and the session stays active. -/
theorem iterate_incrementCount (n : Nat) (pm : ProductionManager)
    (ha : pm.sessionActive = true) (h0 : 0 ≤ pm.sessionCount)
    (h1 : pm.sessionCount ≤ 9999) :
    ((ProductionManager.incrementCount)^[n] pm).sessionCount =
      min (pm.sessionCount + n) 9999 ∧
    ((ProductionManager.incrementCount)^[n] pm).sessionActive = true := by
  induction n generalizing pm with
  | zero =>
    constructor
    · simp only [Function.iterate_zero, id_eq]
      omega
    · simpa using ha
  | succ n ih =>
    rw [Function.iterate_succ_apply]
    by_cases h : pm.sessionCount < 9999
    · have hstep : pm.incrementCount = { pm with sessionCount := pm.sessionCount + 1 } := by
        simp [ProductionManager.incrementCount, ha, h]
      rw [hstep]
      obtain ⟨h2, h3⟩ := ih { pm with sessionCount := pm.sessionCount + 1 }
        (by simpa using ha) (by simp; omega) (by simp; omega)
      refine ⟨?_, h3⟩
      rw [h2]
      simp only
      omega
    · have hstep : pm.incrementCount = pm := by
        simp [ProductionManager.incrementCount, ha, h]
      rw [hstep]
      obtain ⟨h2, h3⟩ := ih pm ha h0 h1
      refine ⟨?_, h3⟩
      rw [h2]
      omega

/-- Claim C3: `stopSession` on an active session captures the stop time,
folds `sessionCount` into `totalSessionCount` and clears the active flag,
but — contrary to the original claim — it leaves `sessionCount` at its
final value (the counter is zeroed only by the next `startSession`);
`stopSession` on an inactive session returns failure and changes
nothing. -/
theorem C3_stop_session (pm : ProductionManager) (now : DateTime) :
    (pm.sessionActive = true →
      pm.stopSession now =
        ({ pm with sessionActive := false, sessionStopTime := now,
                   totalSessionCount := pm.totalSessionCount + pm.sessionCount }, true)) ∧
    (pm.sessionActive = false → pm.stopSession now = (pm, false)) := by
  constructor <;> intro h <;> simp [ProductionManager.stopSession, h]

/-- Witness for C3: a concrete active session with count 5 and total 10
stops into total 15, inactive, count still 5; a concrete inactive manager
is unchanged by `stopSession`. -/
theorem C3_stop_session_witness :
    ProductionManager.stopSession
        ⟨true, 5, 10, ⟨2024, 6, 15, 8, 0, 0⟩, ⟨2024, 6, 15, 8, 0, 0⟩, 0⟩
        ⟨2024, 6, 15, 9, 0, 0⟩ =
      (⟨false, 5, 15, ⟨2024, 6, 15, 8, 0, 0⟩, ⟨2024, 6, 15, 9, 0, 0⟩, 0⟩, true) ∧
    ProductionManager.stopSession
        ⟨false, 5, 10, ⟨2024, 6, 15, 8, 0, 0⟩, ⟨2024, 6, 15, 8, 0, 0⟩, 0⟩
        ⟨2024, 6, 15, 9, 0, 0⟩ =
      (⟨false, 5, 10, ⟨2024, 6, 15, 8, 0, 0⟩, ⟨2024, 6, 15, 8, 0, 0⟩, 0⟩, false) := by
  constructor
  · exact (C3_stop_session
      ⟨true, 5, 10, ⟨2024, 6, 15, 8, 0, 0⟩, ⟨2024, 6, 15, 8, 0, 0⟩, 0⟩
      ⟨2024, 6, 15, 9, 0, 0⟩).1 rfl
  · exact (C3_stop_session
      ⟨false, 5, 10, ⟨2024, 6, 15, 8, 0, 0⟩, ⟨2024, 6, 15, 8, 0, 0⟩, 0⟩
      ⟨2024, 6, 15, 9, 0, 0⟩).2 rfl

/-- Counterexample for C3 as stated: stopping a concrete active session
with `sessionCount = 5` leaves `sessionCount = 5`, not 0, so the claim
that `stop()` resets `session_count` to 0 is false on the code. -/
theorem C3_counterexample :
    (ProductionManager.stopSession
        ⟨true, 5, 10, ⟨2024, 6, 15, 8, 0, 0⟩, ⟨2024, 6, 15, 8, 0, 0⟩, 0⟩
        ⟨2024, 6, 15, 9, 0, 0⟩).1.sessionCount = 5 ∧
    ¬ ((ProductionManager.stopSession
        ⟨true, 5, 10, ⟨2024, 6, 15, 8, 0, 0⟩, ⟨2024, 6, 15, 8, 0, 0⟩, 0⟩
        ⟨2024, 6, 15, 9, 0, 0⟩).1.sessionCount = 0) := by
  decide

/-- Claim C5: `incrementCount` is a no-op when no session is active; on a
freshly started session it saturates at the hard-coded `max_count` 9999,
so `max_count + 50 = 10049` calls yield exactly 9999 and no number of
calls ever exceeds 9999. -/
theorem C5_clamp_law (pm : ProductionManager) (now : DateTime)
    (hinactive : pm.sessionActive = false) :
    (∀ q : ProductionManager, q.sessionActive = false → q.incrementCount = q) ∧
    ((ProductionManager.incrementCount)^[10049] (pm.startSession now).1).sessionCount = 9999 ∧
    (∀ n : Nat,
      ((ProductionManager.incrementCount)^[n] (pm.startSession now).1).sessionCount ≤ 9999) := by
  have hstart : (pm.startSession now).1 =
      { pm with sessionActive := true, sessionCount := 0,
                startingCountValue := 0, sessionStartTime := now } := by
    simp [ProductionManager.startSession, hinactive]
  refine ⟨?_, ?_, ?_⟩
  · intro q hq
    simp [ProductionManager.incrementCount, hq]
  · rw [hstart]
    have h := (iterate_incrementCount 10049
      { pm with sessionActive := true, sessionCount := 0,
                startingCountValue := 0, sessionStartTime := now }
      rfl (le_refl 0) (by norm_num)).1
    rw [h]
    simp only
    omega
  · intro n
    rw [hstart]
    have h := (iterate_incrementCount n
      { pm with sessionActive := true, sessionCount := 0,
                startingCountValue := 0, sessionStartTime := now }
      rfl (le_refl 0) (by norm_num)).1
    rw [h]
    simp only
    omega

/-- Witness for C5 at a concrete inactive manager and a concrete clock
value. -/
theorem C5_clamp_law_witness :
    (∀ q : ProductionManager, q.sessionActive = false → q.incrementCount = q) ∧
    ((ProductionManager.incrementCount)^[10049]
      ((ProductionManager.startSession
        ⟨false, 0, 0, ⟨2024, 6, 15, 8, 0, 0⟩, ⟨2024, 6, 15, 8, 0, 0⟩, 0⟩
        ⟨2024, 6, 15, 9, 0, 0⟩).1)).sessionCount = 9999 ∧
    (∀ n : Nat,
      ((ProductionManager.incrementCount)^[n]
        ((ProductionManager.startSession
          ⟨false, 0, 0, ⟨2024, 6, 15, 8, 0, 0⟩, ⟨2024, 6, 15, 8, 0, 0⟩, 0⟩
          ⟨2024, 6, 15, 9, 0, 0⟩).1)).sessionCount ≤ 9999) :=
  C5_clamp_law
    ⟨false, 0, 0, ⟨2024, 6, 15, 8, 0, 0⟩, ⟨2024, 6, 15, 8, 0, 0⟩, 0⟩
    ⟨2024, 6, 15, 9, 0, 0⟩ rfl

/-- Claim C8 (amended): `hasHourChanged` is a pure `const` query, so it
keeps returning `true` for a new hour until `handleHourChange` records
that hour; once `handleHourChange` has run, re-reading any time with the
same hour value reports `false`, so the check-then-handle sequence fires
at most once per distinct hour value. -/
theorem C8_hour_boundary (tm : TimeManager) (now next : DateTime)
    (hfire : tm.hasHourChanged now = true) (hsame : next.hour = now.hour) :
    tm.hasHourChanged now = true ∧
    (tm.handleHourChange now).hasHourChanged next = false := by
  refine ⟨hfire, ?_⟩
  have hne : now.hour ≠ tm.lastTrackedHour := by
    simpa [TimeManager.hasHourChanged, bne_iff_ne] using hfire
  simp [TimeManager.handleHourChange, TimeManager.hasHourChanged, hne, hsame]

/-- Witness for C8: hour 5 recorded, clock now at hour 6 — the query
fires, and after `handleHourChange` a re-read of hour 6 does not. -/
theorem C8_hour_boundary_witness :
    TimeManager.hasHourChanged ⟨5, ⟨2024, 6, 15, 5, 0, 0⟩, true⟩
      ⟨2024, 6, 15, 6, 0, 0⟩ = true ∧
    (TimeManager.handleHourChange ⟨5, ⟨2024, 6, 15, 5, 0, 0⟩, true⟩
      ⟨2024, 6, 15, 6, 0, 0⟩).hasHourChanged ⟨2024, 6, 15, 6, 10, 0⟩ = false :=
  C8_hour_boundary ⟨5, ⟨2024, 6, 15, 5, 0, 0⟩, true⟩
    ⟨2024, 6, 15, 6, 0, 0⟩ ⟨2024, 6, 15, 6, 10, 0⟩ (by decide) (by decide)

/-- Counterexample for C8 as stated: `hasHourChanged` is `const` and
updates nothing, so a second call on the same `TimeManager` with the same
clock value returns `true` again — not `false` as the claim requires. -/
theorem C8_counterexample :
    TimeManager.hasHourChanged ⟨5, ⟨2024, 6, 15, 5, 0, 0⟩, true⟩
      ⟨2024, 6, 15, 6, 0, 0⟩ = true ∧
    ¬ (TimeManager.hasHourChanged ⟨5, ⟨2024, 6, 15, 5, 0, 0⟩, true⟩
      ⟨2024, 6, 15, 6, 0, 0⟩ = false) := by
  decide

/-- Claim C9 (amended): when a production session is active,
`handleHourChange` leaves the state entirely unchanged — the hourly reset
is suppressed and the cumulative total is also left untouched, the fold
being deferred to the first hour change with no active session; when no
session is active, the live counter is recorded as the hourly count,
folded into the cumulative total and reset to zero. -/
theorem C9_hour_change_suppression (s : V3.State) (now : DateTime) :
    (s.productionActive = true → V3.handleHourChange s now = s) ∧
    (s.productionActive = false →
      V3.handleHourChange s now =
        { s with currentCount := 0, countChanged := false,
                 hourlyCount := s.currentCount,
                 cumulativeCount := s.cumulativeCount + s.currentCount }) := by
  constructor <;> intro h <;> simp [V3.handleHourChange, h]

/-- Concrete state for the C9 witness and counterexample: an active
session with 7 pending counts and a cumulative total of 10. -/
def stateC9 : V3.State :=
  { V3.freshBoot with productionActive := true, rtcAvailable := true,
                      sdAvailable := true, currentCount := 7, cumulativeCount := 10 }

/-- Witness for C9 at concrete states: active hour change is the
identity; inactive hour change folds 7 into the cumulative total and
resets the live counter. -/
theorem C9_hour_change_suppression_witness :
    V3.handleHourChange stateC9 ⟨2024, 6, 15, 9, 0, 0⟩ = stateC9 ∧
    V3.handleHourChange { stateC9 with productionActive := false } ⟨2024, 6, 15, 9, 0, 0⟩ =
      { stateC9 with productionActive := false, currentCount := 0, countChanged := false,
                     hourlyCount := 7, cumulativeCount := 17 } :=
  ⟨(C9_hour_change_suppression stateC9 ⟨2024, 6, 15, 9, 0, 0⟩).1 rfl,
   ((C9_hour_change_suppression { stateC9 with productionActive := false }
      ⟨2024, 6, 15, 9, 0, 0⟩).2 rfl).trans (by decide)⟩

/-- The occupancy of the circular buffer is structurally at most 15: with
one slot kept free to distinguish full from empty, `(tail - head) mod 16`
never reaches 16. -/
theorem occupied_le_fifteen (sm : StateManager) : sm.occupied ≤ 15 := by
  unfold StateManager.occupied
  omega

/-- The code's full test `(tail + 1) % 16 == head` holds exactly when 15
slots are occupied. -/
theorem isFull_iff_occupied (sm : StateManager) :
    sm.isFull = true ↔ sm.occupied = 15 := by
  have ht := sm.eventQueueTail.isLt
  have hh := sm.eventQueueHead.isLt
  unfold StateManager.isFull StateManager.occupied
  rw [beq_iff_eq, Fin.ext_iff, Fin.val_add]
  simp only [Fin.val_one]
  omega

/-- `queueEvent` on a full queue returns the state unchanged: the
incoming event is the one dropped. -/
theorem queueEvent_of_full (sm : StateManager) (e : SystemEvent)
    (hfull : sm.occupied = 15) : sm.queueEvent e = sm := by
  have ht := sm.eventQueueTail.isLt
  have hh := sm.eventQueueHead.isLt
  have hcond : sm.eventQueueTail + 1 = sm.eventQueueHead := by
    rw [Fin.ext_iff, Fin.val_add]
    simp only [Fin.val_one]
    unfold StateManager.occupied at hfull
    omega
  simp [StateManager.queueEvent, hcond]

/-- `queueEvent` on a non-full queue admits the event at `tail` and
advances `tail`. -/
theorem queueEvent_of_not_full (sm : StateManager) (e : SystemEvent)
    (hcond : ¬ (sm.eventQueueTail + 1 = sm.eventQueueHead)) :
    sm.queueEvent e =
      { sm with eventQueue := Function.update sm.eventQueue sm.eventQueueTail e,
                eventQueueTail := sm.eventQueueTail + 1 } := by
  simp [StateManager.queueEvent, hcond]

/-- An admitted enqueue increases occupancy by exactly one. -/
theorem queueEvent_occupied_of_not_full (sm : StateManager) (e : SystemEvent)
    (hlt : sm.occupied < 15) :
    (sm.queueEvent e).occupied = sm.occupied + 1 := by
  have ht := sm.eventQueueTail.isLt
  have hh := sm.eventQueueHead.isLt
  have hcond : ¬ (sm.eventQueueTail + 1 = sm.eventQueueHead) := by
    rw [Fin.ext_iff, Fin.val_add]
    simp only [Fin.val_one]
    unfold StateManager.occupied at hlt
    omega
  rw [queueEvent_of_not_full sm e hcond]
  unfold StateManager.occupied at hlt ⊢
  simp only [Fin.val_add, Fin.val_one]
  omega

/-- Claim C4: for every sequence of enqueues the number of occupied slots
never exceeds 16, and an enqueue on a full queue (the code's rejection
test `(tail + 1) % 16 == head`) drops only the incoming event: the state,
hence the already-queued events and their order, is unchanged. -/
theorem C4_queue_drop_newest (es : List SystemEvent) (sm : StateManager)
    (e : SystemEvent) (hfull : sm.isFull = true) :
    StateManager.occupied (es.foldl StateManager.queueEvent StateManager.initialState) ≤ 16 ∧
    sm.queueEvent e = sm ∧
    (sm.queueEvent e).queueContents = sm.queueContents := by
  have h15 := (isFull_iff_occupied sm).1 hfull
  refine ⟨le_trans (occupied_le_fifteen _) (by norm_num), queueEvent_of_full sm e h15, ?_⟩
  rw [queueEvent_of_full sm e h15]

/-- Witness for C4: a concrete full queue (head 0, tail 15) rejects an
incoming `EVT_COUNTER_PRESSED` and keeps its contents; a concrete
two-event enqueue sequence stays within the bound. -/
theorem C4_queue_drop_newest_witness :
    StateManager.occupied
      ([SystemEvent.EVT_PRODUCTION_START, SystemEvent.EVT_COUNTER_PRESSED].foldl
        StateManager.queueEvent StateManager.initialState) ≤ 16 ∧
    StateManager.queueEvent
        { StateManager.initialState with eventQueueTail := 15 }
        SystemEvent.EVT_COUNTER_PRESSED =
      { StateManager.initialState with eventQueueTail := 15 } ∧
    (StateManager.queueEvent
        { StateManager.initialState with eventQueueTail := 15 }
        SystemEvent.EVT_COUNTER_PRESSED).queueContents =
      StateManager.queueContents { StateManager.initialState with eventQueueTail := 15 } :=
  C4_queue_drop_newest
    [SystemEvent.EVT_PRODUCTION_START, SystemEvent.EVT_COUNTER_PRESSED]
    { StateManager.initialState with eventQueueTail := 15 }
    SystemEvent.EVT_COUNTER_PRESSED (by decide)

/-- Claim C10: the 16-slot circular buffer actually holds at most
`EVENT_QUEUE_SIZE - 1 = 15` events: along every sequence of enqueue/drain
operations the occupancy stays at most 15; an enqueue at occupancy 15 is
the one rejected as queue-full (state unchanged), while below 15 the
event is admitted and occupancy grows by one. -/
theorem C10_queue_fifteen_capacity (ops : List QueueOp) (sm : StateManager)
    (e : SystemEvent) :
    StateManager.occupied (ops.foldl applyQueueOp StateManager.initialState) ≤ 15 ∧
    (sm.occupied = 15 → sm.queueEvent e = sm) ∧
    (sm.occupied < 15 → (sm.queueEvent e).occupied = sm.occupied + 1) := by
  exact ⟨occupied_le_fifteen _,
    fun h => queueEvent_of_full sm e h,
    fun h => queueEvent_occupied_of_not_full sm e h⟩

/-- Witness for C10: a concrete enqueue/enqueue/drain sequence stays at
most 15 occupied; the concrete full queue (tail 15, head 0) rejects an
enqueue; the empty initial queue admits one and reaches occupancy 1. -/
theorem C10_queue_fifteen_capacity_witness :
    StateManager.occupied
      ([QueueOp.enq SystemEvent.EVT_PRODUCTION_START,
        QueueOp.enq SystemEvent.EVT_COUNTER_PRESSED, QueueOp.deq].foldl
        applyQueueOp StateManager.initialState) ≤ 15 ∧
    StateManager.queueEvent
        { StateManager.initialState with eventQueueTail := 15 }
        SystemEvent.EVT_COUNTER_PRESSED =
      { StateManager.initialState with eventQueueTail := 15 } ∧
    (StateManager.queueEvent StateManager.initialState
        SystemEvent.EVT_COUNTER_PRESSED).occupied =
      StateManager.initialState.occupied + 1 :=
  ⟨(C10_queue_fifteen_capacity
      [QueueOp.enq SystemEvent.EVT_PRODUCTION_START,
       QueueOp.enq SystemEvent.EVT_COUNTER_PRESSED, QueueOp.deq]
      StateManager.initialState SystemEvent.EVT_COUNTER_PRESSED).1,
   (C10_queue_fifteen_capacity []
      { StateManager.initialState with eventQueueTail := 15 }
      SystemEvent.EVT_COUNTER_PRESSED).2.1 (by decide),
   (C10_queue_fifteen_capacity [] StateManager.initialState
      SystemEvent.EVT_COUNTER_PRESSED).2.2 (by decide)⟩

/-- A successful guarded transition into PRODUCTION can only start from
READY, and lands in PRODUCTION. -/
theorem transitionTo_production_success (sm : StateManager)
    (hsucc : (sm.transitionTo SystemState.PRODUCTION).2 = true) :
    sm.currentState = SystemState.READY ∧
    (sm.transitionTo SystemState.PRODUCTION).1.currentState = SystemState.PRODUCTION := by
  by_cases hc : sm.canTransitionTo SystemState.PRODUCTION = true
  · have hready : sm.currentState = SystemState.READY := by
      simpa [StateManager.canTransitionTo, StateManager.canStartProduction,
        GuardConditions.canStartProduction, GuardConditions.isOLEDAvailable] using hc
    refine ⟨hready, ?_⟩
    simp [StateManager.transitionTo, hc, StateManager.exitActions,
      StateManager.enterActions, hready]
  · simp [StateManager.transitionTo, hc] at hsucc

/-- Claim C6: a `transitionTo(PRODUCTION)` issued right after another
successful `transitionTo(PRODUCTION)` fails (guard: current state must be
READY) and the refused call returns the state unchanged, still in
PRODUCTION. -/
theorem C6_production_guard (sm : StateManager)
    (hsucc : (sm.transitionTo SystemState.PRODUCTION).2 = true) :
    (sm.transitionTo SystemState.PRODUCTION).1.currentState = SystemState.PRODUCTION ∧
    ((sm.transitionTo SystemState.PRODUCTION).1.transitionTo SystemState.PRODUCTION) =
      ((sm.transitionTo SystemState.PRODUCTION).1, false) := by
  obtain ⟨-, hprod⟩ := transitionTo_production_success sm hsucc
  set sm1 := (sm.transitionTo SystemState.PRODUCTION).1 with hsm1
  refine ⟨hprod, ?_⟩
  have hguard : sm1.canTransitionTo SystemState.PRODUCTION = false := by
    simp [StateManager.canTransitionTo, StateManager.canStartProduction, hprod]
  simp [StateManager.transitionTo, hguard]

/-- Witness for C6: from the initial FSM state moved to READY, a first
`transitionTo(PRODUCTION)` succeeds and a second is refused with the
state unchanged. -/
theorem C6_production_guard_witness :
    ({ StateManager.initialState with
        currentState := SystemState.READY }.transitionTo
      SystemState.PRODUCTION).1.currentState = SystemState.PRODUCTION ∧
    (({ StateManager.initialState with
        currentState := SystemState.READY }.transitionTo
      SystemState.PRODUCTION).1.transitionTo SystemState.PRODUCTION) =
      (({ StateManager.initialState with
          currentState := SystemState.READY }.transitionTo
        SystemState.PRODUCTION).1, false) :=
  C6_production_guard
    { StateManager.initialState with currentState := SystemState.READY } (by decide)

/-- Claim C7: while in PRODUCTION, an `EVT_DIAGNOSTIC_REQUEST` is ignored
by the per-state handler (state unchanged) and a direct
`transitionTo(DIAGNOSTIC)` is refused; DIAGNOSTIC can only be entered by
a transition whose source state is READY. -/
theorem C7_no_production_diagnostic_edge (sm : StateManager) :
    (sm.currentState = SystemState.PRODUCTION →
      sm.processEvent SystemEvent.EVT_DIAGNOSTIC_REQUEST = sm ∧
      sm.transitionTo SystemState.DIAGNOSTIC = (sm, false)) ∧
    ((sm.transitionTo SystemState.DIAGNOSTIC).2 = true →
      sm.currentState = SystemState.READY) := by
  constructor
  · intro h
    obtain ⟨cs, ps, pss, tss, q, hd, tl⟩ := sm
    simp only at h
    subst h
    exact ⟨rfl, rfl⟩
  · intro hsucc
    by_cases hc : sm.canTransitionTo SystemState.DIAGNOSTIC = true
    · simpa [StateManager.canTransitionTo, StateManager.canEnterDiagnostic] using hc
    · simp [StateManager.transitionTo, hc] at hsucc

/-- Witness for C7: in a concrete PRODUCTION state the diagnostic request
is ignored and the direct transition refused; from a concrete READY state
a successful transition to DIAGNOSTIC certifies the only entry source. -/
theorem C7_no_production_diagnostic_edge_witness :
    ({ StateManager.initialState with
        currentState := SystemState.PRODUCTION }.processEvent
      SystemEvent.EVT_DIAGNOSTIC_REQUEST =
        { StateManager.initialState with currentState := SystemState.PRODUCTION } ∧
     { StateManager.initialState with
        currentState := SystemState.PRODUCTION }.transitionTo SystemState.DIAGNOSTIC =
        ({ StateManager.initialState with currentState := SystemState.PRODUCTION }, false)) ∧
    ({ StateManager.initialState with
        currentState := SystemState.READY } : StateManager).currentState =
      SystemState.READY :=
  ⟨(C7_no_production_diagnostic_edge
      { StateManager.initialState with currentState := SystemState.PRODUCTION }).1 rfl,
   (C7_no_production_diagnostic_edge
      { StateManager.initialState with currentState := SystemState.READY }).2 (by decide)⟩

/-- The debounce-accepted counter interrupt on an active session below
the clamp adds exactly one count. -/
theorem handleInterrupt_active (s : V3.State) (ha : s.productionActive = true)
    (hlt : s.currentCount < 9999) :
    V3.handleInterrupt s = { s with currentCount := s.currentCount + 1, countChanged := true } := by
  simp [V3.handleInterrupt, ha, hlt]

/-- Claim C1: recovery round-trip.  From any state with RTC and SD
available, no more than 9996 pre-session counts and a clock value whose
fields pass the code's snapshot validation: `startProduction`, three
accepted counter interrupts, a snapshot write, a simulated crash and a
restore on any fresh boot with SD available yield a session with
`productionActive = true` and a recovered session count of 3. -/
theorem C1_recovery_round_trip (s0 b : V3.State) (now : DateTime)
    (hrt : s0.rtcAvailable = true) (hsd : s0.sdAvailable = true)
    (hc0 : 0 ≤ s0.currentCount) (hc1 : s0.currentCount ≤ 9996)
    (hbsd : b.sdAvailable = true)
    (hy0 : 2020 ≤ now.year) (hy1 : now.year ≤ 2100)
    (hm0 : 1 ≤ now.month) (hm1 : now.month ≤ 12)
    (hd0 : 1 ≤ now.day) (hd1 : now.day ≤ 31)
    (hh : now.hour ≤ 23) (hmin : now.minute ≤ 59) (hsec : now.second ≤ 59) :
    (V3.restoreProductionState b
      (V3.saveProductionState
        (V3.handleInterrupt (V3.handleInterrupt (V3.handleInterrupt
          (V3.startProduction s0 now)))) none)).productionActive = true ∧
    (V3.restoreProductionState b
      (V3.saveProductionState
        (V3.handleInterrupt (V3.handleInterrupt (V3.handleInterrupt
          (V3.startProduction s0 now)))) none)).productionCount = 3 := by
  have e0 : V3.startProduction s0 now =
      { s0 with productionActive := true, productionStartTime := now,
                productionStartCount := s0.currentCount, productionCount := 0 } := by
    simp [V3.startProduction, hrt]
  have hlt0 : s0.currentCount < 9999 := by omega
  have hlt1 : s0.currentCount + 1 < 9999 := by omega
  have hlt2 : s0.currentCount + 1 + 1 < 9999 := by omega
  constructor
  · simp [e0, handleInterrupt_active, V3.saveProductionState, V3.restoreProductionState,
      V3.validSnapshot, hsd, hbsd, hlt0, hlt1, hlt2,
      decide_eq_true hy0, decide_eq_true hy1, decide_eq_true hm0, decide_eq_true hm1,
      decide_eq_true hd0, decide_eq_true hd1, decide_eq_true hh, decide_eq_true hmin,
      decide_eq_true hsec]
  · simp [e0, handleInterrupt_active, V3.saveProductionState, V3.restoreProductionState,
      V3.validSnapshot, hsd, hbsd, hlt0, hlt1, hlt2,
      decide_eq_true hy0, decide_eq_true hy1, decide_eq_true hm0, decide_eq_true hm1,
      decide_eq_true hd0, decide_eq_true hd1, decide_eq_true hh, decide_eq_true hmin,
      decide_eq_true hsec]
    omega

/-- Witness for C1: a ready state with both devices present and zero
prior counts, clock 2024-06-15 12:30:45, restored on a fresh boot with SD
available. -/
theorem C1_recovery_round_trip_witness :
    (V3.restoreProductionState { V3.freshBoot with sdAvailable := true }
      (V3.saveProductionState
        (V3.handleInterrupt (V3.handleInterrupt (V3.handleInterrupt
          (V3.startProduction
            { V3.freshBoot with rtcAvailable := true, sdAvailable := true }
            ⟨2024, 6, 15, 12, 30, 45⟩)))) none)).productionActive = true ∧
    (V3.restoreProductionState { V3.freshBoot with sdAvailable := true }
      (V3.saveProductionState
        (V3.handleInterrupt (V3.handleInterrupt (V3.handleInterrupt
          (V3.startProduction
            { V3.freshBoot with rtcAvailable := true, sdAvailable := true }
            ⟨2024, 6, 15, 12, 30, 45⟩)))) none)).productionCount = 3 :=
  C1_recovery_round_trip
    { V3.freshBoot with rtcAvailable := true, sdAvailable := true }
    { V3.freshBoot with sdAvailable := true }
    ⟨2024, 6, 15, 12, 30, 45⟩
    rfl rfl (by decide) (by decide) rfl
    (by decide) (by decide) (by decide) (by decide) (by decide) (by decide)
    (by decide) (by decide) (by decide)

/-- Claim C2 (amended): at boot the session is restored exactly when a
snapshot exists and passes the code's validation, which is
`2020 ≤ year ≤ 2100`, `1 ≤ month ≤ 12`, `1 ≤ day ≤ 31`, `hour ≤ 23`,
`minute ≤ 59`, `second ≤ 59` — upper bounds only for hour, minute and
second, and an upper bound 2100 on the year; a passing snapshot resumes
the session (`active = true`, session count recomputed from the stored
counter pair, start time from the snapshot); a failing snapshot (for
example `month = 13`) is discarded with a warning and the boot state is
unchanged, so the session stays inactive. -/
theorem C2_recovery_validation (b : V3.State) (snap : V3.Snapshot)
    (hsd : b.sdAvailable = true) (hclean : b.productionActive = false) :
    (V3.restoreProductionState b none = b) ∧
    (V3.validSnapshot snap = true ↔
      (2020 ≤ snap.year ∧ snap.year ≤ 2100 ∧ 1 ≤ snap.month ∧ snap.month ≤ 12 ∧
       1 ≤ snap.day ∧ snap.day ≤ 31 ∧ snap.hour ≤ 23 ∧ snap.minute ≤ 59 ∧
       snap.second ≤ 59)) ∧
    (V3.validSnapshot snap = true →
      V3.restoreProductionState b (some snap) =
        { b with productionActive := true, currentCount := snap.savedCurrentCount,
                 productionStartCount := snap.savedStartCount,
                 productionStartTime := ⟨snap.year, snap.month, snap.day,
                                         snap.hour, snap.minute, snap.second⟩,
                 productionCount := snap.savedCurrentCount - snap.savedStartCount }) ∧
    (V3.validSnapshot snap = false →
      V3.restoreProductionState b (some snap) = b ∧
      (V3.restoreProductionState b (some snap)).productionActive = false) := by
  refine ⟨by simp [V3.restoreProductionState, hsd], ?_, ?_, ?_⟩
  · simp only [V3.validSnapshot, Bool.and_eq_true, decide_eq_true_eq]
    omega
  · intro hv
    simp [V3.restoreProductionState, hsd, hv]
  · intro hv
    have hskip : V3.restoreProductionState b (some snap) = b := by
      simp [V3.restoreProductionState, hsd, hv]
    exact ⟨hskip, by rw [hskip]; exact hclean⟩

/-- Witness for C2: the spec's own corruption scenario — a snapshot with
`month = 13` on a fresh boot with SD available is rejected and the
session starts inactive. -/
theorem C2_recovery_validation_witness :
    (V3.restoreProductionState { V3.freshBoot with sdAvailable := true } none =
      { V3.freshBoot with sdAvailable := true }) ∧
    (V3.validSnapshot ⟨3, 0, 2024, 13, 15, 12, 30, 45⟩ = true ↔
      (2020 ≤ (2024 : Int) ∧ (2024 : Int) ≤ 2100 ∧ 1 ≤ (13 : Int) ∧ (13 : Int) ≤ 12 ∧
       1 ≤ (15 : Int) ∧ (15 : Int) ≤ 31 ∧ (12 : Int) ≤ 23 ∧ (30 : Int) ≤ 59 ∧
       (45 : Int) ≤ 59)) ∧
    (V3.validSnapshot ⟨3, 0, 2024, 13, 15, 12, 30, 45⟩ = true →
      V3.restoreProductionState { V3.freshBoot with sdAvailable := true }
          (some ⟨3, 0, 2024, 13, 15, 12, 30, 45⟩) =
        { { V3.freshBoot with sdAvailable := true } with
            productionActive := true, currentCount := 3, productionStartCount := 0,
            productionStartTime := ⟨2024, 13, 15, 12, 30, 45⟩,
            productionCount := 3 - 0 }) ∧
    (V3.validSnapshot ⟨3, 0, 2024, 13, 15, 12, 30, 45⟩ = false →
      V3.restoreProductionState { V3.freshBoot with sdAvailable := true }
          (some ⟨3, 0, 2024, 13, 15, 12, 30, 45⟩) =
        { V3.freshBoot with sdAvailable := true } ∧
      (V3.restoreProductionState { V3.freshBoot with sdAvailable := true }
          (some ⟨3, 0, 2024, 13, 15, 12, 30, 45⟩)).productionActive = false) :=
  C2_recovery_validation { V3.freshBoot with sdAvailable := true }
    ⟨3, 0, 2024, 13, 15, 12, 30, 45⟩ rfl rfl

/-- Counterexample for C2 as stated: a snapshot with `hour = -1` fails
the claim's field ranges (hour must be in 0-23), yet the code's
validation has no lower bound on hour, so boot does not discard it — the
session is restored active with count 5, contradicting the claimed
if-and-only-if. -/
theorem C2_counterexample :
    ¬ (0 ≤ (⟨5, 0, 2024, 6, 15, -1, 30, 45⟩ : V3.Snapshot).hour) ∧
    (V3.restoreProductionState { V3.freshBoot with sdAvailable := true }
      (some ⟨5, 0, 2024, 6, 15, -1, 30, 45⟩)).productionActive = true ∧
    (V3.restoreProductionState { V3.freshBoot with sdAvailable := true }
      (some ⟨5, 0, 2024, 6, 15, -1, 30, 45⟩)).productionCount = 5 := by
  decide

/-- Counterexample for C9 as stated: with an active session and 7 pending
counts, `handleHourChange` leaves the cumulative total at 10 instead of
updating it — so the claim that during production "only the cumulative
total is updated" is false on the code (the in-source comment saying the
cumulative is updated does not match the branch body, which changes
nothing). -/
theorem C9_counterexample :
    stateC9.productionActive = true ∧
    stateC9.currentCount = 7 ∧
    V3.handleHourChange stateC9 ⟨2024, 6, 15, 9, 0, 0⟩ = stateC9 ∧
    ¬ ((V3.handleHourChange stateC9 ⟨2024, 6, 15, 9, 0, 0⟩).cumulativeCount =
        stateC9.cumulativeCount + stateC9.currentCount) := by
  decide

